import Mathlib

/-
Verification of the registration backend (packages/backend/src/index.ts)
against its natural-language specification.

The backend exposes two endpoints:
  POST /send-otp    : domain-checks the email, then calls sendOtp
  POST /verify-otp  : checks the OTP, mints a hat, admits the identity
                      commitment into the Semaphore group, then records
                      the email/address pair in the accounts table.

We embed each handler as a pure function from an environment describing
the outcomes of the external collaborators (OTP store, hats client,
chain client, sqlite) to the HTTP response produced together with a
trace of which collaborators the handler invoked.
-/

namespace Registration

/-- A JSON HTTP response as built by res.status(s).json(body): status
code, the fixed message string, and the optional raw error object that
some branches echo into the body (the error field). -/
structure Response where
  status : Nat
  message : String
  errorPayload : Option String
deriving DecidableEq, Repr

/-- What one invocation of an Express handler produces: either a
response was sent, or an exception escaped the async handler uncaught
(Express 4 does not catch rejections of async handlers, so no response
is ever sent on that path). -/
inductive HandlerOutput where
  | responded (r : Response)
  | thrown (e : String)
deriving DecidableEq, Repr

/-- Outcome of an awaited collaborator call that returns no data the
handler inspects: it either resolves or rejects with an error. -/
inductive CallRes where
  | ok
  | throws (e : String)
deriving DecidableEq, Repr

/-- Outcome of hatsClient.mintHat: it either resolves with a result
whose status field the handler inspects, or rejects. -/
inductive MintCall where
  | returns (status : Bool)
  | throws (e : String)
deriving DecidableEq, Repr

/-- Outcome of verifyOtp(email, otp): it either resolves with a
boolean validity verdict, or rejects (storage-layer failure). -/
inductive OtpCheck where
  | returns (valid : Bool)
  | throws (e : String)
deriving DecidableEq, Repr

/-- One parsed registration request together with the behaviour of
every external collaborator the /verify-otp handler consults, in the
order the handler consults them. -/
structure VerifyEnv where
  email : String
  address : String
  otpResult : OtpCheck
  mint : MintCall
  simulateRes : CallRes
  writeRes : CallRes
  getDbRes : CallRes
  dbInsert : CallRes
deriving DecidableEq, Repr

/-- Which side effects the /verify-otp handler attempted: the mint
call, the two chain-write sub-steps of group admission, and the
accounts-table INSERT, plus the row the INSERT stored when it
succeeded. -/
structure Trace where
  calledMint : Bool
  calledSimulate : Bool
  calledWriteTx : Bool
  attemptedLedgerWrite : Bool
  ledgerRow : Option (String × String)
deriving DecidableEq, Repr

/-- The trace of a handler run that invoked no collaborator. -/
def Trace.empty : Trace := ⟨false, false, false, false, none⟩

/-- The 400 response of the invalid-OTP branch (index.ts line 75). -/
def otpRejectedResp : Response := ⟨400, "Invalid or expired OTP", none⟩

/-- The 500 response of the mint failure branch (index.ts line 91). -/
def mintFailedResp : Response := ⟨500, "Failed to mint hat", none⟩

/-- The POST /verify-otp handler (index.ts lines 58 to 125), for a
request that passed schema validation. Control flow of the source:
check the OTP (outside any try block); mint the hat inside a try whose
body also throws when mintRes.status is falsy; simulate then write the
gateAndAddMember call inside a second try; open the db (outside any
try) and INSERT the email/address row inside a third try. -/
def verifyOtpHandler (env : VerifyEnv) : HandlerOutput × Trace :=
  match env.otpResult with
  | OtpCheck.throws e => (HandlerOutput.thrown e, Trace.empty)
  | OtpCheck.returns false => (HandlerOutput.responded otpRejectedResp, Trace.empty)
  | OtpCheck.returns true =>
    match env.mint with
    | MintCall.throws _ =>
        (HandlerOutput.responded mintFailedResp, ⟨true, false, false, false, none⟩)
    | MintCall.returns false =>
        (HandlerOutput.responded mintFailedResp, ⟨true, false, false, false, none⟩)
    | MintCall.returns true =>
      match env.simulateRes with
      | CallRes.throws _ =>
          (HandlerOutput.responded ⟨500, "Failed to add account to Semaphore group", none⟩,
           ⟨true, true, false, false, none⟩)
      | CallRes.ok =>
        match env.writeRes with
        | CallRes.throws _ =>
            (HandlerOutput.responded ⟨500, "Failed to add account to Semaphore group", none⟩,
             ⟨true, true, true, false, none⟩)
        | CallRes.ok =>
          match env.getDbRes with
          | CallRes.throws e => (HandlerOutput.thrown e, ⟨true, true, true, false, none⟩)
          | CallRes.ok =>
            match env.dbInsert with
            | CallRes.throws e =>
                (HandlerOutput.responded ⟨500, "Could not store account", some e⟩,
                 ⟨true, true, true, true, none⟩)
            | CallRes.ok =>
                (HandlerOutput.responded ⟨200, "OTP verified successfully", none⟩,
                 ⟨true, true, true, true, some (env.email, env.address)⟩)

/-- The 500 response of the failed group admission, named after the
message string it carries. -/
def groupAdmissionFailedResp : Response :=
  ⟨500, "Failed to add account to Semaphore group", none⟩

/-- The response, if any, carried by a handler output. -/
def respOf : HandlerOutput → Option Response
  | HandlerOutput.responded r => some r
  | HandlerOutput.thrown _ => none

/-- The caller-visible outcome category of a handler output: the
status code and fixed message, without the echoed error payload. -/
def outcomeCategory (o : HandlerOutput) : Option (Nat × String) :=
  (respOf o).map (fun r => (r.status, r.message))

end Registration

namespace Registration

/-- C1 demo environment: OTP valid, mint resolves with a falsy status,
everything downstream would succeed if reached. -/
def envC1 : VerifyEnv :=
  ⟨"alice@pse.dev", "0xabc", OtpCheck.returns true, MintCall.returns false,
   CallRes.ok, CallRes.ok, CallRes.ok, CallRes.ok⟩

/-- C2 demo environment: OTP verification returns false. -/
def envC2 : VerifyEnv :=
  ⟨"alice@pse.dev", "0xabc", OtpCheck.returns false, MintCall.returns true,
   CallRes.ok, CallRes.ok, CallRes.ok, CallRes.ok⟩

/-- C3 demo environment: group admission fails at the simulation
sub-step. -/
def envC3 : VerifyEnv :=
  ⟨"alice@pse.dev", "0xabc", OtpCheck.returns true, MintCall.returns true,
   CallRes.throws "execution reverted", CallRes.ok, CallRes.ok, CallRes.ok⟩

/-- C7 demo environment: the OTP store rejects with a storage-layer
error during verification. -/
def envC7 : VerifyEnv :=
  ⟨"alice@pse.dev", "0xabc", OtpCheck.throws "SQLITE_BUSY: database is locked",
   MintCall.returns true, CallRes.ok, CallRes.ok, CallRes.ok, CallRes.ok⟩

/-- C8 demo environment: the accounts INSERT fails with the sqlite
uniqueness violation on the email column. -/
def envC8unique : VerifyEnv :=
  ⟨"alice@pse.dev", "0xabc", OtpCheck.returns true, MintCall.returns true,
   CallRes.ok, CallRes.ok, CallRes.ok,
   CallRes.throws "UNIQUE constraint failed: accounts.email"⟩

/-- C8 demo environment: the accounts INSERT fails with a generic
storage error unrelated to uniqueness. -/
def envC8generic : VerifyEnv :=
  ⟨"alice@pse.dev", "0xabc", OtpCheck.returns true, MintCall.returns true,
   CallRes.ok, CallRes.ok, CallRes.ok,
   CallRes.throws "SQLITE_IOERR: disk I/O error"⟩

/-- C9 demo environment: a ledger-step failure with one underlying
exception. -/
def envC9a : VerifyEnv :=
  ⟨"alice@pse.dev", "0xabc", OtpCheck.returns true, MintCall.returns true,
   CallRes.ok, CallRes.ok, CallRes.ok, CallRes.throws "SQLITE_FULL: database or disk is full"⟩

/-- C9 demo environment: a ledger-step failure with a different
underlying exception. -/
def envC9b : VerifyEnv :=
  ⟨"alice@pse.dev", "0xabc", OtpCheck.returns true, MintCall.returns true,
   CallRes.ok, CallRes.ok, CallRes.ok, CallRes.throws "SQLITE_CORRUPT: database disk image is malformed"⟩

end Registration

namespace Otp

/-- Modelled from the spec: packages/backend/src/otp.ts is not among
the provided source files, so the OtpRecord shape follows section 3 of
the spec: a one-time code keyed by email together with issue and
expiry timestamps and a single-use consumed flag. -/
structure OtpRecord where
  code : String
  issuedAt : Nat
  expiresAt : Nat
  consumed : Bool
deriving DecidableEq, Repr

/-- Modelled from the spec: the OTP store keyed by email, at most one
live record per email; embedded as an association list from email to
record. -/
abbrev OtpStore := List (String × OtpRecord)

/-- The record stored for an email, if any. -/
def lookupRec : OtpStore → String → Option OtpRecord
  | [], _ => none
  | (k, v) :: rest, e => if k = e then some v else lookupRec rest e

/-- Replace the record stored for an email, leaving the store
unchanged when no record exists for it. -/
def updateRec : OtpStore → String → OtpRecord → OtpStore
  | [], _, _ => []
  | (k, v) :: rest, e, r =>
      if k = e then (k, r) :: rest else (k, v) :: updateRec rest e r

/-- Modelled from the spec: verify(email, code) of section 4.1, whose
implementation file packages/backend/src/otp.ts is not among the
provided sources. It fails closed, returning false when no record
exists for the email, when the stored code differs from the submitted
code, when the current time is past expiresAt, or when the record is
already consumed; on success it marks the record consumed and returns
true. The function returns the verdict together with the updated
store. -/
def verify (s : OtpStore) (email code : String) (now : Nat) : Bool × OtpStore :=
  match lookupRec s email with
  | none => (false, s)
  | some r =>
    if r.code ≠ code then (false, s)
    else if r.expiresAt < now then (false, s)
    else if r.consumed then (false, s)
    else (true, updateRec s email { r with consumed := true })

/-- Run a sequence of verify calls, each given by an email, a
submitted code and the time of the call, threading the store through;
returns the final store. -/
def runVerifies (s : OtpStore) : List (String × String × Nat) → OtpStore
  | [] => s
  | (e, c, n) :: rest => runVerifies (verify s e c n).2 rest

/-- The store holds a consumed record for the email. -/
def consumedAt (s : OtpStore) (e : String) : Prop :=
  ∃ r, lookupRec s e = some r ∧ r.consumed = true

/-- C4 demo store: one fresh record for alice. -/
def demoStore : OtpStore := [("alice@pse.dev", ⟨"1234", 0, 10, false⟩)]

/-- C4 demo tail sequence of verify calls. -/
def demoCalls : List (String × String × Nat) :=
  [("alice@pse.dev", "1234", 6), ("bob@pse.dev", "9999", 7)]

end Otp

namespace Registration

/-- The JS String.prototype.endsWith check used by the handler
(email.endsWith applied to the domain marker), embedded as a suffix
test on the character lists of the two strings. -/
def jsEndsWith (s suffix : String) : Bool :=
  List.isSuffixOf suffix.data s.data

/-- The behaviour of the collaborators the /send-otp handler consults:
the email field of the request body (none when absent) and the sendOtp
collaborator, whose effect on the OTP store is an arbitrary function
and which either resolves or rejects. -/
structure SendEnv where
  email : Option String
  sendEffect : Otp.OtpStore → Otp.OtpStore
  sendError : Option String

/-- The POST /send-otp handler (index.ts lines 31 to 48): reject a
missing or empty email (falsy in the source), reject an email that
does not end with the pse.dev domain suffix, otherwise call sendOtp
and report success or a 500 that echoes the error. Returns the
response, whether sendOtp was invoked, and the resulting OTP store. -/
def sendOtpHandler (st : Otp.OtpStore) (env : SendEnv) :
    Response × Bool × Otp.OtpStore :=
  match env.email with
  | none => (⟨400, "Email is required", none⟩, false, st)
  | some e =>
    if e = "" then (⟨400, "Email is required", none⟩, false, st)
    else if jsEndsWith e "@pse.dev" then
      match env.sendError with
      | none => (⟨200, "OTP sent successfully", none⟩, true, env.sendEffect st)
      | some err => (⟨500, "Failed to send OTP", some err⟩, true, env.sendEffect st)
    else (⟨400, "Invalid email domain", none⟩, false, st)

end Registration

namespace Registration

/-- C1: when OTP verification succeeds and the mint call resolves with
a non-success status (no transport-level exception), the handler
responds with the CredentialMintFailed message, never calls the group
admission client (neither simulation nor write), and never touches the
registration ledger. -/
theorem c1_mint_failure_stops_flow (env : VerifyEnv)
    (hOtp : env.otpResult = OtpCheck.returns true)
    (hMint : env.mint = MintCall.returns false) :
    (verifyOtpHandler env).1 = HandlerOutput.responded mintFailedResp ∧
    (verifyOtpHandler env).2.calledSimulate = false ∧
    (verifyOtpHandler env).2.calledWriteTx = false ∧
    (verifyOtpHandler env).2.attemptedLedgerWrite = false ∧
    (verifyOtpHandler env).2.ledgerRow = none := by
  obtain ⟨em, ad, o, m, s, w, g, d⟩ := env
  dsimp only at hOtp hMint
  subst hOtp
  subst hMint
  exact ⟨rfl, rfl, rfl, rfl, rfl⟩

/-- C1 witness: the theorem instantiated at a concrete environment. -/
theorem c1_witness :
    (verifyOtpHandler envC1).1 = HandlerOutput.responded mintFailedResp ∧
    (verifyOtpHandler envC1).2.calledSimulate = false ∧
    (verifyOtpHandler envC1).2.calledWriteTx = false ∧
    (verifyOtpHandler envC1).2.attemptedLedgerWrite = false ∧
    (verifyOtpHandler envC1).2.ledgerRow = none :=
  c1_mint_failure_stops_flow envC1 rfl rfl

/-- C2: when OTP verification returns false, the handler responds with
the OtpRejected message and invokes no collaborator at all: no mint,
no group admission, no ledger write. -/
theorem c2_otp_rejected_stops_flow (env : VerifyEnv)
    (hOtp : env.otpResult = OtpCheck.returns false) :
    (verifyOtpHandler env).1 = HandlerOutput.responded otpRejectedResp ∧
    (verifyOtpHandler env).2 = Trace.empty := by
  obtain ⟨em, ad, o, m, s, w, g, d⟩ := env
  dsimp only at hOtp
  subst hOtp
  exact ⟨rfl, rfl⟩

/-- C2 witness: the theorem instantiated at a concrete environment. -/
theorem c2_witness :
    (verifyOtpHandler envC2).1 = HandlerOutput.responded otpRejectedResp ∧
    (verifyOtpHandler envC2).2 = Trace.empty :=
  c2_otp_rejected_stops_flow envC2 rfl

/-- C3: a ledger row is stored only when the mint and both group
admission sub-steps succeeded, and when group admission fails at the
simulation or at the write the handler responds with the
GroupAdmissionFailed message without ever attempting the ledger
write. -/
theorem c3_ledger_only_after_chain_success (env : VerifyEnv) :
    (∀ p, (verifyOtpHandler env).2.ledgerRow = some p →
      p = (env.email, env.address) ∧ env.otpResult = OtpCheck.returns true ∧
      env.mint = MintCall.returns true ∧ env.simulateRes = CallRes.ok ∧
      env.writeRes = CallRes.ok) ∧
    (env.otpResult = OtpCheck.returns true → env.mint = MintCall.returns true →
      (env.simulateRes ≠ CallRes.ok ∨ env.writeRes ≠ CallRes.ok) →
      (verifyOtpHandler env).1 = HandlerOutput.responded groupAdmissionFailedResp ∧
      (verifyOtpHandler env).2.attemptedLedgerWrite = false ∧
      (verifyOtpHandler env).2.ledgerRow = none) := by
  obtain ⟨em, ad, o, m, s, w, g, d⟩ := env
  rcases o with (_ | _) | e₁ <;> rcases m with (_ | _) | e₂ <;>
    rcases s with _ | e₃ <;> rcases w with _ | e₄ <;>
    rcases g with _ | e₅ <;> rcases d with _ | e₆ <;>
    simp [verifyOtpHandler, groupAdmissionFailedResp, Trace.empty]

/-- C3 witness: the theorem instantiated at a concrete environment in
which the simulation sub-step fails. -/
theorem c3_witness :
    (verifyOtpHandler envC3).1 = HandlerOutput.responded groupAdmissionFailedResp ∧
    (verifyOtpHandler envC3).2.attemptedLedgerWrite = false ∧
    (verifyOtpHandler envC3).2.ledgerRow = none :=
  (c3_ledger_only_after_chain_success envC3).2 rfl rfl
    (Or.inl (by simp [envC3]))

end Registration

namespace Registration

/-- C6: for every email that does not end with the pse.dev domain
suffix, the /send-otp handler answers with a 400 validation error,
never invokes the sendOtp collaborator, and leaves the OTP store
untouched, so no OtpRecord is created. -/
theorem c6_bad_domain_rejected_before_issue (st : Otp.OtpStore)
    (e : String) (eff : Otp.OtpStore → Otp.OtpStore) (er : Option String)
    (h : jsEndsWith e "@pse.dev" = false) :
    (sendOtpHandler st ⟨some e, eff, er⟩).1.status = 400 ∧
    (sendOtpHandler st ⟨some e, eff, er⟩).2.1 = false ∧
    (sendOtpHandler st ⟨some e, eff, er⟩).2.2 = st := by
  by_cases he : e = "" <;> simp [sendOtpHandler, he, h]

/-- C6 witness: the theorem instantiated at a concrete outside-domain
email. -/
theorem c6_witness :
    (sendOtpHandler Otp.demoStore ⟨some "mallory@evil.example", id, none⟩).1.status = 400 ∧
    (sendOtpHandler Otp.demoStore ⟨some "mallory@evil.example", id, none⟩).2.1 = false ∧
    (sendOtpHandler Otp.demoStore ⟨some "mallory@evil.example", id, none⟩).2.2 = Otp.demoStore :=
  c6_bad_domain_rejected_before_issue Otp.demoStore "mallory@evil.example" id none (by decide)

/-- C10: the /send-otp handler invokes the sendOtp collaborator
exactly on the strings whose suffix is the literal pse.dev domain
marker; in particular any local part passes (the bare suffix string is
accepted) and no other structural validation of the email happens
before the OTP is issued. -/
theorem c10_domain_check_is_suffix_check (st : Otp.OtpStore)
    (e : String) (eff : Otp.OtpStore → Otp.OtpStore) (er : Option String) :
    (sendOtpHandler st ⟨some e, eff, er⟩).2.1 = jsEndsWith e "@pse.dev" := by
  by_cases he : e = ""
  · subst he
    cases er <;> simp [sendOtpHandler] <;> decide
  · by_cases hs : jsEndsWith e "@pse.dev" <;> cases er <;>
      simp [sendOtpHandler, he, hs]

end Registration

namespace Otp

/-- Looking up the updated email after updateRec sees the new record,
provided a record existed. -/
theorem lookup_update_self (s : OtpStore) (e : String) (r r' : OtpRecord)
    (h : lookupRec s e = some r) : lookupRec (updateRec s e r') e = some r' := by
  induction s with
  | nil => simp [lookupRec] at h
  | cons hd tl ih =>
    obtain ⟨k, v⟩ := hd
    by_cases hk : k = e
    · simp [lookupRec, updateRec, hk]
    · simp [lookupRec, updateRec, hk] at h ⊢
      exact ih h

/-- Looking up a different email is unaffected by updateRec. -/
theorem lookup_update_other (s : OtpStore) (e e' : String) (r' : OtpRecord)
    (h : e ≠ e') : lookupRec (updateRec s e' r') e = lookupRec s e := by
  induction s with
  | nil => simp [updateRec]
  | cons hd tl ih =>
    obtain ⟨k, v⟩ := hd
    by_cases hk : k = e'
    · subst hk
      simp [lookupRec, updateRec, Ne.symm h]
    · by_cases hke : k = e <;> simp [lookupRec, updateRec, hk, hke, ih, h]

/-- Case analysis of one verify call: either it returns false and
leaves the store unchanged, or the stored record matches the submitted
code, is unexpired and unconsumed, and verify returns true after
marking it consumed. -/
theorem verify_spec (s : OtpStore) (e c : String) (n : Nat) :
    verify s e c n = (false, s) ∨
    ∃ r, lookupRec s e = some r ∧ r.code = c ∧ ¬ r.expiresAt < n ∧
      r.consumed = false ∧
      verify s e c n = (true, updateRec s e { r with consumed := true }) := by
  unfold verify
  cases hl : lookupRec s e with
  | none => left; rfl
  | some r =>
    by_cases h1 : r.code ≠ c
    · left; simp [h1]
    · push_neg at h1
      by_cases h2 : r.expiresAt < n
      · left; simp [h1, h2]
      · by_cases h3 : r.consumed
        · left; simp [h1, h2, h3]
        · right
          exact ⟨r, rfl, h1, h2, by simpa using h3, by simp [h1, h2, h3]⟩

/-- A verify call against a consumed record returns false. -/
theorem verify_false_of_consumedAt (s : OtpStore) (e c : String) (n : Nat)
    (h : consumedAt s e) : (verify s e c n).1 = false := by
  rcases verify_spec s e c n with heq | ⟨r, hr, _, _, hc, heq⟩
  · rw [heq]
  · obtain ⟨r', hr', hc'⟩ := h
    rw [hr] at hr'
    injection hr' with hrr
    subst hrr
    rw [hc] at hc'
    simp at hc'

/-- Once an email holds a consumed record, any verify call preserves
that fact. -/
theorem consumedAt_verify (s : OtpStore) (e : String) (h : consumedAt s e)
    (e' c' : String) (n' : Nat) : consumedAt (verify s e' c' n').2 e := by
  rcases verify_spec s e' c' n' with heq | ⟨r, hr, _, _, hc, heq⟩
  · rw [heq]; exact h
  · rw [heq]
    dsimp only
    by_cases he : e' = e
    · subst he
      obtain ⟨r', hr', hc'⟩ := h
      rw [hr] at hr'
      injection hr' with hrr
      subst hrr
      rw [hc] at hc'
      simp at hc'
    · obtain ⟨r', hr', hc'⟩ := h
      exact ⟨r', by rw [lookup_update_other _ _ _ _ (Ne.symm he)]; exact hr', hc'⟩

end Otp

namespace Otp

/-- A successful verify call leaves a consumed record behind for the
email it verified. -/
theorem verify_true_consumedAt (s : OtpStore) (e c : String) (n : Nat)
    (h : (verify s e c n).1 = true) : consumedAt (verify s e c n).2 e := by
  rcases verify_spec s e c n with heq | ⟨r, hr, _, _, _, heq⟩
  · rw [heq] at h
    simp at h
  · rw [heq]
    dsimp only
    exact ⟨{ r with consumed := true }, lookup_update_self s e r _ hr, rfl⟩

/-- A consumed record survives any sequence of verify calls. -/
theorem consumedAt_runVerifies (calls : List (String × String × Nat))
    (s : OtpStore) (e : String) (h : consumedAt s e) :
    consumedAt (runVerifies s calls) e := by
  induction calls generalizing s with
  | nil => exact h
  | cons hd tl ih =>
    obtain ⟨e', c', n'⟩ := hd
    exact ih _ (consumedAt_verify s e h e' c' n')

/-- C4: verify returns true at most once per email and code: after a
call that returned true, every later verify call with the same email
and code returns false, whatever sequence of verify calls happened in
between. -/
theorem c4_verify_at_most_once (s : OtpStore) (email code : String) (now : Nat)
    (h : (verify s email code now).1 = true)
    (calls : List (String × String × Nat)) (later : Nat) :
    (verify (runVerifies (verify s email code now).2 calls) email code later).1 = false :=
  verify_false_of_consumedAt _ _ _ _
    (consumedAt_runVerifies calls _ email (verify_true_consumedAt s email code now h))

/-- C4 witness: a concrete store on which the first verify call
returns true and a later identical call, after an interleaved
sequence, returns false. -/
theorem c4_witness :
    (verify demoStore "alice@pse.dev" "1234" 5).1 = true ∧
    (verify (runVerifies (verify demoStore "alice@pse.dev" "1234" 5).2 demoCalls)
      "alice@pse.dev" "1234" 6).1 = false :=
  ⟨by decide, c4_verify_at_most_once demoStore "alice@pse.dev" "1234" 5 (by decide) demoCalls 6⟩

/-- C5: verify fails closed: it returns true exactly when a record
exists for the email whose stored code equals the submitted code, the
current time is not past expiresAt and the record is unconsumed (so it
returns false in the four failure cases, without any exceptional
exit), and on success the record is marked consumed in the resulting
store. -/
theorem c5_verify_fails_closed (s : OtpStore) (e c : String) (n : Nat) :
    ((verify s e c n).1 = true ↔
      ∃ r, lookupRec s e = some r ∧ r.code = c ∧ ¬ r.expiresAt < n ∧
        r.consumed = false)
    ∧ ((verify s e c n).1 = true →
        lookupRec (verify s e c n).2 e =
          (lookupRec s e).map (fun r => { r with consumed := true })) := by
  constructor
  · constructor
    · intro h
      rcases verify_spec s e c n with heq | ⟨r, hr, h1, h2, h3, heq⟩
      · rw [heq] at h
        simp at h
      · exact ⟨r, hr, h1, h2, h3⟩
    · rintro ⟨r, hr, h1, h2, h3⟩
      unfold verify
      rw [hr]
      simp [h1, h2, h3]
  · intro h
    rcases verify_spec s e c n with heq | ⟨r, hr, _, _, _, heq⟩
    · rw [heq] at h
      simp at h
    · rw [heq, hr]
      dsimp only
      rw [lookup_update_self s e r _ hr]
      simp

/-- C5 witness: the success clause of the theorem instantiated at a
concrete store with a matching, unexpired, unconsumed record. -/
theorem c5_witness :
    (verify demoStore "alice@pse.dev" "1234" 5).1 = true ∧
    lookupRec (verify demoStore "alice@pse.dev" "1234" 5).2 "alice@pse.dev" =
      (lookupRec demoStore "alice@pse.dev").map (fun r => { r with consumed := true }) :=
  ⟨by decide, (c5_verify_fails_closed demoStore "alice@pse.dev" "1234" 5).2 (by decide)⟩

end Otp

namespace Registration

/-- C7 counterexample: when the OTP store rejects with a storage-layer
error, the handler does not surface any response at all: the exception
escapes the async handler uncaught, so no InfraError outcome is
produced for the caller. -/
theorem c7_counterexample :
    respOf (verifyOtpHandler envC7).1 = none ∧
    (verifyOtpHandler envC7).1 =
      HandlerOutput.thrown "SQLITE_BUSY: database is locked" := by
  decide

/-- C7 amended: a storage-layer error during OTP verification escapes
the handler as an uncaught exception carrying the collaborator error;
no response, in particular no InfraError response, is produced. The
exceptional outcome is still a different handler output than the
OtpRejected response, and no downstream collaborator is invoked. -/
theorem c7_amended_store_error_escapes (env : VerifyEnv) (e : String)
    (h : env.otpResult = OtpCheck.throws e) :
    (verifyOtpHandler env).1 = HandlerOutput.thrown e ∧
    respOf (verifyOtpHandler env).1 = none ∧
    (verifyOtpHandler env).1 ≠ HandlerOutput.responded otpRejectedResp ∧
    (verifyOtpHandler env).2 = Trace.empty := by
  obtain ⟨em, ad, o, m, s, w, g, d⟩ := env
  dsimp only at h
  subst h
  refine ⟨rfl, rfl, ?_, rfl⟩
  simp [verifyOtpHandler]

/-- C7 witness: the amended theorem instantiated at the concrete
environment whose OTP store is down. -/
theorem c7_witness :
    (verifyOtpHandler envC7).1 =
      HandlerOutput.thrown "SQLITE_BUSY: database is locked" ∧
    respOf (verifyOtpHandler envC7).1 = none ∧
    (verifyOtpHandler envC7).1 ≠ HandlerOutput.responded otpRejectedResp ∧
    (verifyOtpHandler envC7).2 = Trace.empty :=
  c7_amended_store_error_escapes envC7 "SQLITE_BUSY: database is locked" rfl

/-- C8 counterexample: a uniqueness violation on the accounts INSERT
and a generic storage failure produce the same status code and the
same message, so no AlreadyRegistered outcome category exists. -/
theorem c8_counterexample :
    outcomeCategory (verifyOtpHandler envC8unique).1 =
      outcomeCategory (verifyOtpHandler envC8generic).1 ∧
    outcomeCategory (verifyOtpHandler envC8unique).1 =
      some (500, "Could not store account") := by
  decide

/-- C8 amended: every failure of the accounts INSERT, uniqueness
violation included, maps to the single 500 response whose message is
Could not store account with the raw error echoed into the body; the
already-registered case is not distinguishable from a generic storage
failure by status or message. -/
theorem c8_amended_uniform_ledger_failure (env : VerifyEnv) (e : String)
    (h1 : env.otpResult = OtpCheck.returns true)
    (h2 : env.mint = MintCall.returns true)
    (h3 : env.simulateRes = CallRes.ok) (h4 : env.writeRes = CallRes.ok)
    (h5 : env.getDbRes = CallRes.ok) (h6 : env.dbInsert = CallRes.throws e) :
    (verifyOtpHandler env).1 =
      HandlerOutput.responded ⟨500, "Could not store account", some e⟩ ∧
    outcomeCategory (verifyOtpHandler env).1 =
      some (500, "Could not store account") := by
  obtain ⟨em, ad, o, m, s, w, g, d⟩ := env
  dsimp only at h1 h2 h3 h4 h5 h6
  subst h1; subst h2; subst h3; subst h4; subst h5; subst h6
  exact ⟨rfl, rfl⟩

/-- C8 witness: the amended theorem instantiated at the concrete
environment whose INSERT fails with the uniqueness violation. -/
theorem c8_witness :
    (verifyOtpHandler envC8unique).1 =
      HandlerOutput.responded
        ⟨500, "Could not store account",
         some "UNIQUE constraint failed: accounts.email"⟩ ∧
    outcomeCategory (verifyOtpHandler envC8unique).1 =
      some (500, "Could not store account") :=
  c8_amended_uniform_ledger_failure envC8unique
    "UNIQUE constraint failed: accounts.email" rfl rfl rfl rfl rfl rfl

/-- C9 counterexample: two runs that both fail at the ledger-write
step but with different underlying exceptions produce different
response bodies, because the handler echoes the raw error into the
body; the fixed parts of the two responses coincide. -/
theorem c9_counterexample :
    outcomeCategory (verifyOtpHandler envC9a).1 =
      outcomeCategory (verifyOtpHandler envC9b).1 ∧
    (verifyOtpHandler envC9a).2.attemptedLedgerWrite = true ∧
    (verifyOtpHandler envC9b).2.attemptedLedgerWrite = true ∧
    (verifyOtpHandler envC9a).1 ≠ (verifyOtpHandler envC9b).1 ∧
    respOf (verifyOtpHandler envC9a).1 =
      some ⟨500, "Could not store account",
            some "SQLITE_FULL: database or disk is full"⟩ := by
  decide

/-- C9 amended: failures at the OTP, mint and group admission steps
map to fixed responses independent of the underlying exception, but a
failure of the accounts INSERT and a failure of sendOtp echo the raw
collaborator error into the response body, so those two steps leak the
exception and their bodies vary with it. -/
theorem c9_amended_fixed_messages_except_ledger_and_send (env : VerifyEnv) :
    (env.otpResult = OtpCheck.returns false →
      (verifyOtpHandler env).1 = HandlerOutput.responded otpRejectedResp) ∧
    (∀ e, env.otpResult = OtpCheck.returns true → env.mint = MintCall.throws e →
      (verifyOtpHandler env).1 = HandlerOutput.responded mintFailedResp) ∧
    (env.otpResult = OtpCheck.returns true → env.mint = MintCall.returns false →
      (verifyOtpHandler env).1 = HandlerOutput.responded mintFailedResp) ∧
    (env.otpResult = OtpCheck.returns true → env.mint = MintCall.returns true →
      (env.simulateRes ≠ CallRes.ok ∨ env.writeRes ≠ CallRes.ok) →
      (verifyOtpHandler env).1 = HandlerOutput.responded groupAdmissionFailedResp) ∧
    (∀ e, env.otpResult = OtpCheck.returns true → env.mint = MintCall.returns true →
      env.simulateRes = CallRes.ok → env.writeRes = CallRes.ok →
      env.getDbRes = CallRes.ok → env.dbInsert = CallRes.throws e →
      (verifyOtpHandler env).1 =
        HandlerOutput.responded ⟨500, "Could not store account", some e⟩) ∧
    (∀ st em eff er, jsEndsWith em "@pse.dev" = true → em ≠ "" →
      (sendOtpHandler st ⟨some em, eff, some er⟩).1 =
        ⟨500, "Failed to send OTP", some er⟩) := by
  obtain ⟨em, ad, o, m, s, w, g, d⟩ := env
  refine ⟨?_, ?_, ?_, ?_, ?_, ?_⟩
  · intro h
    dsimp only at h
    subst h
    rfl
  · intro e h1 h2
    dsimp only at h1 h2
    subst h1; subst h2
    rfl
  · intro h1 h2
    dsimp only at h1 h2
    subst h1; subst h2
    rfl
  · intro h1 h2 h3
    dsimp only at h1 h2 h3
    subst h1; subst h2
    rcases h3 with h3 | h3
    · rcases s with _ | e3
      · exact absurd rfl h3
      · rfl
    · rcases s with _ | e3
      · rcases w with _ | e4
        · exact absurd rfl h3
        · rfl
      · rfl
  · intro e h1 h2 h3 h4 h5 h6
    dsimp only at h1 h2 h3 h4 h5 h6
    subst h1; subst h2; subst h3; subst h4; subst h5; subst h6
    rfl
  · intro st em2 eff er hsuf hne
    simp [sendOtpHandler, hne, hsuf]

/-- C9 witness: the OTP-rejection clause of the amended theorem at a
concrete environment. -/
theorem c9_witness :
    (verifyOtpHandler envC2).1 = HandlerOutput.responded otpRejectedResp :=
  (c9_amended_fixed_messages_except_ledger_and_send envC2).1 rfl

end Registration
